import Mathlib

/-!
# Verification of the MusicMCP audio session engine

A shallow embedding of `src/musicmcp/MusicMCP.py` (the two-session variant,
which the specification adopts as authoritative) together with the startup
behaviour shared with `src/musicserver/MusicServer.py`.

Modelling conventions:

* The Python module's global mutable state (`recording`, `playing`, the
  worker threads, the `curr.wav` file, the saved-recordings directory, the
  in-memory `table` dict and the persisted `table.yaml` document) is one
  Lean `State` record.
* Python dicts keyed by strings become association lists with
  `tlookup` / `tinsert` / `terase`.  The source never mutates a metadata
  dict in place (every update rebinds `table[id]` to a fresh dict), so
  value equality is a faithful rendering of `dict(...)` cloning.
* A fallible operation returns `Except State (Bool × State)`: `.ok (b, s)`
  is a normal boolean return with post-state `s`; `.error s` is a Python
  exception escaping the call with the globals in state `s` at the moment
  of the raise.
* WAV files are abstracted to frame count, frame rate and byte size; the
  writer in `record` produces a single-channel PCM16 file at rate 44100,
  whose byte size is the 44-byte RIFF/fmt/data header plus two bytes per
  frame.
* Machine floats (`time` metadata, computed by Python float division) are
  idealised as exact rationals.
-/

/-- `CHUNK = 1024` (frames per stream read/write), from `MusicMCP.py` line 10. -/
def CHUNK : Nat := 1024

/-- `RATE = 44100` (sample rate in Hz), from `MusicMCP.py` line 11. -/
def RATE : Nat := 44100

/-- Catalog metadata for one take: `{"size": ..., "time": ...}` as stored in
`table`.  `size` is a byte count; `time` is seconds, idealised as a rational. -/
structure Meta where
  size : Nat
  time : ℚ
deriving Repr, DecidableEq

/-- A WAV asset file, abstracted to the quantities the program reads from it:
`wave`'s frame count and frame rate, and `os.path.getsize`'s byte length. -/
structure Wav where
  nframes : Nat
  framerate : Nat
  sizeBytes : Nat
deriving Repr, DecidableEq

/-- The byte length of a single-channel 16-bit PCM WAV file holding `n`
frames: the standard 44-byte header plus 2 bytes per frame. -/
def wavSize (n : Nat) : Nat := 44 + 2 * n

/-- The file produced by `record`'s final write (lines 72–77): mono PCM16 at
`RATE`, holding the accumulated frames. -/
def writeWav (totalFrames : Nat) : Wav :=
  { nframes := totalFrames, framerate := RATE, sizeBytes := wavSize totalFrames }

/-- Association-list lookup, modelling `d[k]` / `k in d` on a Python dict. -/
def tlookup (k : String) : List (String × α) → Option α
  | [] => none
  | (k', v) :: t => if k' = k then some v else tlookup k t

/-- Remove every binding of key `k`, modelling `del d[k]`. -/
def terase (k : String) : List (String × α) → List (String × α)
  | [] => []
  | p :: t => if p.1 = k then terase k t else p :: terase k t

/-- Bind key `k` to `v`, replacing any previous binding: `d[k] = v`. -/
def tinsert (k : String) (v : α) (l : List (String × α)) : List (String × α) :=
  (k, v) :: terase k l

/-- The module's global mutable state plus the files it touches. -/
structure State where
  /-- the `recording` flag (line 22) -/
  recording : Bool
  /-- the `playing` flag (line 23) -/
  playing : Bool
  /-- whether the `recordThread` worker is still running -/
  recordWorkerAlive : Bool
  /-- whether the `playThread` worker is still running -/
  playWorkerAlive : Bool
  /-- the file at the `CURR` path (`curr.wav`), if it exists -/
  currFile : Option Wav
  /-- the files `SAVED/<name>.wav`, keyed by `name` -/
  saved : List (String × Wav)
  /-- the in-memory catalog dict `table` (line 25) -/
  table : List (String × Meta)
  /-- the parsed content of the persisted document `TABLE` (`table.yaml`) -/
  tableDoc : Option (List (String × Meta))
deriving Repr, DecidableEq

/-- `yaml.dump(table, open(TABLE, "w"))` (line 64): rewrite the catalog
document in full from the in-memory table. -/
def persist (st : State) : State :=
  { st with tableDoc := some st.table }

/-- `writeTable(id, val)` (`MusicMCP.py` lines 54–64).
`val = none` with `id = "curr"` recomputes `curr`'s metadata from the file at
`CURR` (raising if it is absent, as `wave.open(CURR, "rb")` would);
`val = none` with another `id` deletes the entry (raising `KeyError` if it is
absent); otherwise the entry is set to `val`.  Every branch ends by dumping
the table to the document. -/
def writeTable (st : State) (id : String) (val : Option Meta) :
    Except State State :=
  match val with
  | none =>
    if id = "curr" then
      match st.currFile with
      | none => .error st
      | some f =>
        let m : Meta := { size := f.sizeBytes,
                          time := (f.nframes : ℚ) / (f.framerate : ℚ) }
        .ok (persist { st with table := tinsert "curr" m st.table })
    else
      if (tlookup id st.table).isSome then
        .ok (persist { st with table := terase id st.table })
      else .error st
  | some v =>
    .ok (persist { st with table := tinsert id v st.table })

/-- The tail of the `record` worker (lines 71–78), run once `recording` has
been cleared: under the lock, write the accumulated frames (`chunks` stream
reads of `CHUNK` frames each) to `CURR` as mono PCM16 at `RATE`, then
`writeTable("curr", None)`.  The worker thread then exits; an exception in
the worker is swallowed by the thread machinery, leaving the globals as they
were at the raise. -/
def recordFinish (st : State) (chunks : Nat) : State :=
  let st1 := { st with currFile := some (writeWav (chunks * CHUNK)) }
  match writeTable st1 "curr" none with
  | .ok st2 => { st2 with recordWorkerAlive := false }
  | .error st2 => { st2 with recordWorkerAlive := false }

/-- `startRecording()` (lines 89–99): fails if already recording, otherwise
sets the flag and starts the worker. -/
def startRecording (st : State) : Bool × State :=
  if st.recording then (false, st)
  else (true, { st with recording := true, recordWorkerAlive := true })

/-- `stopRecording()` (lines 101–110): fails if not recording, otherwise
clears the flag and joins the worker, which drains, performs its final write
and table commit (`recordFinish`), and exits before the join returns. -/
def stopRecording (st : State) (chunks : Nat) : Bool × State :=
  if !st.recording then (false, st)
  else (true, recordFinish { st with recording := false } chunks)

/-- The `play` worker's effect on the globals (lines 80–87): it reads `CURR`
in chunks under the lock until the file is exhausted or `playing` is cleared,
then exits.  It assigns none of the module's globals — in particular it never
touches `playing` — so its only state change is its own termination. -/
def playWorkerExit (st : State) : State :=
  { st with playWorkerAlive := false }

/-- `startPlaying()` (lines 112–122): fails if already playing, otherwise
sets the flag and starts the worker. -/
def startPlaying (st : State) : Bool × State :=
  if st.playing then (false, st)
  else (true, { st with playing := true, playWorkerAlive := true })

/-- `stopPlaying()` (lines 124–133): fails if not playing, otherwise clears
the flag and joins the worker. -/
def stopPlaying (st : State) : Bool × State :=
  if !st.playing then (false, st)
  else (true, playWorkerExit { st with playing := false })

/-- `saveCurr(name)` (lines 135–143): fails if the catalog has no `curr`
entry or already has `name`; otherwise copies `CURR` to `SAVED/name.wav`
(raising if `CURR` is absent, as `shutil.copy` would) and commits
`writeTable(name, dict(table["curr"]))` — a fresh clone of `curr`'s
metadata. -/
def saveCurr (st : State) (name : String) : Except State (Bool × State) :=
  match tlookup "curr" st.table, tlookup name st.table with
  | some m, none =>
    match st.currFile with
    | none => .error st
    | some f =>
      let st1 := { st with saved := tinsert name f st.saved }
      (writeTable st1 name (some m)).map (fun s => (true, s))
  | _, _ => .ok (false, st)

/-- `setAsCurr(name)` (lines 145–158).  `pathWav = some w` models
`path.isfile(name) and path.splitext(name)[1] == ".wav"` holding, with `w`
the file at that path: the file is copied to `CURR` and `curr`'s metadata is
recomputed via `writeTable("curr", None)`.  `pathWav = none` models that
test failing: `name` is then treated as a catalog key — absent fails;
present copies `SAVED/name.wav` to `CURR` (raising if that file is absent)
and commits `writeTable("curr", dict(table[name]))`, a clone of the stored
metadata. -/
def setAsCurr (st : State) (name : String) (pathWav : Option Wav) :
    Except State (Bool × State) :=
  match pathWav with
  | some w =>
    let st1 := { st with currFile := some w }
    (writeTable st1 "curr" none).map (fun s => (true, s))
  | none =>
    match tlookup name st.table with
    | none => .ok (false, st)
    | some m =>
      match tlookup name st.saved with
      | none => .error st
      | some f =>
        let st1 := { st with currFile := some f }
        (writeTable st1 "curr" (some m)).map (fun s => (true, s))

/-- The kind of a filesystem access to the working-take file `CURR`. -/
inductive AccessKind where
  | read
  | write
deriving Repr, DecidableEq

/-- One access of the `CURR` file performed by an operation, tagged with
whether the source performs it inside a `with lock:` block. -/
structure CurrAccess where
  kind : AccessKind
  underLock : Bool
deriving Repr, DecidableEq

/-- The `record` worker's accesses of `CURR`: its single final write
(lines 72–77) sits inside the `with lock:` block opened at line 71. -/
def recordCurrAccesses : List CurrAccess :=
  [{ kind := .write, underLock := true }]

/-- The `play` worker's accesses of `CURR`: its chunked reads (lines 82–87)
sit inside the `with lock:` block opened at line 81. -/
def playCurrAccesses : List CurrAccess :=
  [{ kind := .read, underLock := true }]

/-- `saveCurr`'s access of `CURR`: the `shutil.copy(CURR, ...)` at line 141
reads the working-take file; no `with lock:` appears anywhere in `saveCurr`
(lines 136–143). -/
def saveCurrCurrAccesses : List CurrAccess :=
  [{ kind := .read, underLock := false }]

/-- `setAsCurr`'s accesses of `CURR`: both `shutil.copy(..., CURR)` calls
(lines 151 and 156) overwrite the working-take file, and the
`wave.open(CURR, "rb")` inside `writeTable("curr", None)` (line 57, reached
from line 152) re-reads it; no `with lock:` appears anywhere in `setAsCurr`
(lines 146–158). -/
def setAsCurrCurrAccesses : List CurrAccess :=
  [{ kind := .write, underLock := false },
   { kind := .write, underLock := false },
   { kind := .read, underLock := false }]

/-- All accesses of the working-take file across the four operations the
specification's ordering guarantee covers. -/
def allCurrAccesses : List CurrAccess :=
  recordCurrAccesses ++ playCurrAccesses ++
    saveCurrCurrAccesses ++ setAsCurrCurrAccesses

/-- The possible states of the catalog document `TABLE` at startup, as seen
by `table = yaml.load(open(TABLE), yaml.Loader) or {}` (`MusicMCP.py`
line 39, `MusicServer.py` line 30). -/
inductive TableDoc where
  /-- no file exists at the `TABLE` path -/
  | missing
  /-- the file exists but parses to `None` (empty document) -/
  | empty
  /-- the file parses to the mapping `c` -/
  | wellFormed (c : List (String × Meta))
  /-- the file exists but `yaml.load` cannot parse it -/
  | malformed
deriving Repr, DecidableEq

/-- An exception escaping `start` while loading the catalog. -/
inductive StartError where
  /-- `open(TABLE)` raised `FileNotFoundError` -/
  | fileNotFound
  /-- `yaml.load` raised a parse error -/
  | parseError
deriving Repr, DecidableEq

/-- The catalog-loading line of `start`:
`table = yaml.load(open(TABLE), yaml.Loader) or {}`.  `open` raises on a
missing file; `yaml.load` raises on a malformed one and returns `None` on an
empty one, which `or {}` replaces by the empty dict.  An uncaught exception
here aborts `start`, so the service never begins serving operations. -/
def loadTable : TableDoc → Except StartError (List (String × Meta))
  | .missing => .error .fileNotFound
  | .empty => .ok []
  | .wellFormed c => .ok c
  | .malformed => .error .parseError

/-- `delete(name)` (lines 160–168): fails if `name == "curr"` or `name` is
not in the catalog; otherwise `os.remove(SAVED/name.wav)` (raising
`FileNotFoundError` if the file is absent — before any catalog mutation)
then `writeTable(name, None)`. -/
def delete (st : State) (name : String) : Except State (Bool × State) :=
  if name = "curr" ∨ (tlookup name st.table).isNone then .ok (false, st)
  else
    match tlookup name st.saved with
    | none => .error st
    | some _ =>
      let st1 := { st with saved := terase name st.saved }
      (writeTable st1 name none).map (fun s => (true, s))

/-- The store/catalog correspondence: every name other than `curr` has a
file in the saved-recordings directory iff it has a catalog entry. -/
def storeCatalogInv (st : State) : Prop :=
  ∀ name, name ≠ "curr" →
    (tlookup name st.saved).isSome = (tlookup name st.table).isSome

section AssocLemmas

variable {α : Type} (k n : String) (v : α) (l : List (String × α))

theorem tlookup_terase_self : tlookup k (terase k l) = none := by
  induction l with
  | nil => rfl
  | cons p t ih =>
    by_cases h : p.1 = k
    · simpa [terase, h] using ih
    · simpa [terase, tlookup, h] using ih

end AssocLemmas

theorem tlookup_terase_ne {α : Type} {k n : String} {l : List (String × α)}
    (hnk : n ≠ k) : tlookup n (terase k l) = tlookup n l := by
  induction l with
  | nil => rfl
  | cons p t ih =>
    by_cases h : p.1 = k
    · have hkn : k ≠ n := fun he => hnk he.symm
      simp [terase, tlookup, h, hkn, ih]
    · simp [terase, tlookup, h, ih]

theorem tlookup_tinsert_self {α : Type} (k : String) (v : α)
    (l : List (String × α)) : tlookup k (tinsert k v l) = some v := by
  simp [tinsert, tlookup]

theorem tlookup_tinsert_ne {α : Type} {k n : String} {v : α}
    {l : List (String × α)} (hnk : n ≠ k) :
    tlookup n (tinsert k v l) = tlookup n l := by
  have hkn : k ≠ n := fun h => hnk h.symm
  simp [tinsert, tlookup, hkn, tlookup_terase_ne hnk]

/-- Sample states and files used by the concrete witness theorems below. -/
def sampleWav : Wav := { nframes := 2048, framerate := 44100, sizeBytes := 4140 }

/-- A stored metadata value that deliberately differs from any recomputation
from `sampleWav2`, to exhibit clone-without-recomputation behaviour. -/
def sampleMeta : Meta := { size := 4140, time := (2048 : ℚ) / 44100 }

/-- A second file whose recomputed metadata would differ from `sampleMeta`. -/
def sampleWav2 : Wav := { nframes := 100, framerate := 44100, sizeBytes := 244 }

/-- An idle state whose catalog holds `curr` and one named take `a`. -/
def stIdle : State :=
  { recording := false, playing := false,
    recordWorkerAlive := false, playWorkerAlive := false,
    currFile := some sampleWav,
    saved := [("a", sampleWav2)],
    table := [("curr", sampleMeta), ("a", sampleMeta)],
    tableDoc := some [("curr", sampleMeta), ("a", sampleMeta)] }

/-- A state in which both a recording and a playback session are active. -/
def stBusy : State :=
  { recording := true, playing := true,
    recordWorkerAlive := true, playWorkerAlive := true,
    currFile := none, saved := [], table := [], tableDoc := none }

/-- A state with an active recording session. -/
def stRec : State := { stIdle with recording := true, recordWorkerAlive := true }

/-- Whether a call returned `False` normally (as opposed to returning `True`
or raising). -/
def returnsFalse : Except State (Bool × State) → Bool
  | .ok (false, _) => true
  | _ => false

/-- The state reached from `stIdle` by a successful `saveCurr "b"`. -/
def stAfterSave : State :=
  persist { stIdle with saved := tinsert "b" sampleWav stIdle.saved,
                        table := tinsert "b" sampleMeta stIdle.table }

/-- The state reached from `stIdle` by a successful `delete "a"`. -/
def stAfterDelete : State :=
  persist { stIdle with saved := terase "a" stIdle.saved,
                        table := terase "a" stIdle.table }

/-- C2.  Claimed: every read or write of the working-take file — the
recording worker's final write, the playback worker's chunked reads,
`setAsCurr`'s overwrite and `saveCurr`'s copy — is performed while holding
the shared lock.  False: `saveCurr`'s `shutil.copy(CURR, ...)` (line 141)
runs with no `with lock:` block, as do both of `setAsCurr`'s copies. -/
theorem currAccess_not_all_under_lock :
    (allCurrAccesses.all fun a => a.underLock) = false := by decide

/-- C2, amended: only the recording worker's final write and the playback
worker's chunked reads hold the lock; `saveCurr`'s copy out of the
working-take file and `setAsCurr`'s overwrites of it (including the re-read
inside `writeTable("curr", None)`) are performed without the lock, so they
can overlap the workers' accesses. -/
theorem lock_covers_workers_only :
    (recordCurrAccesses.all fun a => a.underLock) = true ∧
    (playCurrAccesses.all fun a => a.underLock) = true ∧
    (saveCurrCurrAccesses.all fun a => !a.underLock) = true ∧
    (setAsCurrCurrAccesses.all fun a => !a.underLock) = true := by decide

/-- C5.  Claimed: a missing catalog document yields the valid empty catalog
and the service starts normally.  False: `open(TABLE)` raises
`FileNotFoundError` before `yaml.load` ever runs, so a missing document is a
hard startup failure, not an empty catalog. -/
theorem loadTable_missing_is_fatal :
    loadTable TableDoc.missing = Except.error StartError.fileNotFound := rfl

/-- C5, amended: at startup an empty catalog document yields the valid empty
catalog and the service starts normally; a missing document or a malformed
(unparseable) one causes a hard startup failure, so no operations are ever
served against it; a well-formed document loads verbatim. -/
theorem loadTable_startup_spec :
    loadTable TableDoc.empty = Except.ok [] ∧
    loadTable TableDoc.missing = Except.error StartError.fileNotFound ∧
    loadTable TableDoc.malformed = Except.error StartError.parseError ∧
    ∀ c, loadTable (TableDoc.wellFormed c) = Except.ok c :=
  ⟨rfl, rfl, rfl, fun _ => rfl⟩

/-- C10.  `delete` attempts `os.remove` (line 166) before any catalog
mutation, so if the name-addressed file is absent the raised
`FileNotFoundError` escapes with the in-memory catalog, the persisted
document and every file exactly as they were at the call: the post-state of
the exception is the initial state itself. -/
theorem delete_error_leaves_state (st : State) (name : String)
    (h1 : name ≠ "curr") (h2 : (tlookup name st.table).isSome = true)
    (h3 : tlookup name st.saved = none) :
    delete st name = Except.error st := by
  have hne : ¬tlookup name st.table = none := by
    intro hn
    rw [hn] at h2
    exact Bool.false_ne_true h2
  simp [delete, h3]
  exact ⟨h1, hne⟩

/-- Witness for C10: deleting the cataloged name `b` whose asset file is
absent raises and leaves the state untouched. -/
theorem delete_error_leaves_state_witness :
    delete { stIdle with table := tinsert "b" sampleMeta stIdle.table } "b" =
      Except.error { stIdle with table := tinsert "b" sampleMeta stIdle.table } :=
  delete_error_leaves_state _ "b" (by decide) (by decide) (by decide)

/-- C9.  After a successful `startPlaying`, if the `play` worker exhausts
the file and exits on its own, the `playing` flag stays set (the worker
never assigns it): `startPlaying` keeps returning `false` with the state
unchanged — so every later retry fails identically — until `stopPlaying`,
which returns `true` and clears the flag. -/
theorem playback_stuck_after_worker_exit (st : State) (h : st.playing = false) :
    (startPlaying st).1 = true ∧
    (playWorkerExit (startPlaying st).2).playing = true ∧
    (playWorkerExit (startPlaying st).2).playWorkerAlive = false ∧
    startPlaying (playWorkerExit (startPlaying st).2) =
      (false, playWorkerExit (startPlaying st).2) ∧
    (stopPlaying (playWorkerExit (startPlaying st).2)).1 = true ∧
    (stopPlaying (playWorkerExit (startPlaying st).2)).2.playing = false := by
  simp [startPlaying, stopPlaying, playWorkerExit, h]

/-- Witness for C9 at the concrete idle state. -/
theorem playback_stuck_after_worker_exit_witness :
    (startPlaying stIdle).1 = true ∧
    startPlaying (playWorkerExit (startPlaying stIdle).2) =
      (false, playWorkerExit (startPlaying stIdle).2) ∧
    (stopPlaying (playWorkerExit (startPlaying stIdle).2)).1 = true :=
  ⟨(playback_stuck_after_worker_exit stIdle rfl).1,
   (playback_stuck_after_worker_exit stIdle rfl).2.2.2.1,
   (playback_stuck_after_worker_exit stIdle rfl).2.2.2.2.1⟩

/-- C1.  Whenever `stopRecording` returns `true`, the working-take file has
just been rewritten with all accumulated frames, the catalog's `curr` entry
holds exactly that file's byte length as `size` and the total recorded frame
count divided by the 44100 Hz sample rate as `time`, and the catalog has
been persisted to the document before the call returns. -/
theorem stopRecording_commits_curr_metadata (st : State) (chunks : Nat)
    (st' : State) (h : stopRecording st chunks = (true, st')) :
    st'.currFile = some (writeWav (chunks * CHUNK)) ∧
    tlookup "curr" st'.table =
      some { size := (writeWav (chunks * CHUNK)).sizeBytes,
             time := ((chunks * CHUNK : ℕ) : ℚ) / (RATE : ℚ) } ∧
    st'.tableDoc = some st'.table := by
  unfold stopRecording at h
  by_cases hr : st.recording
  · simp [hr] at h
    subst h
    refine ⟨?_, ?_, ?_⟩ <;>
      simp [recordFinish, writeTable, persist, writeWav, tlookup_tinsert_self]
  · simp [hr] at h

/-- Witness for C1: stopping a recording of two chunks commits the matching
`curr` metadata and persists it. -/
theorem stopRecording_commits_curr_metadata_witness :
    stopRecording stRec 2 = (true, (stopRecording stRec 2).2) ∧
    ((stopRecording stRec 2).2.currFile = some (writeWav (2 * CHUNK)) ∧
     tlookup "curr" (stopRecording stRec 2).2.table =
       some { size := (writeWav (2 * CHUNK)).sizeBytes,
              time := ((2 * CHUNK : ℕ) : ℚ) / (RATE : ℚ) } ∧
     (stopRecording stRec 2).2.tableDoc =
       some (stopRecording stRec 2).2.table) :=
  ⟨rfl, stopRecording_commits_curr_metadata stRec 2 _ rfl⟩

/-- C4.  Every precondition-violating call — `startRecording` while
recording, `stopRecording` while idle, `startPlaying` while playing,
`stopPlaying` while idle, `saveCurr` with no `curr` entry or a colliding
name, `setAsCurr` with an identifier that is neither a `.wav` path nor a
catalog key, and `delete` of `"curr"` or an unknown name — returns `false`
normally (no exception) with the state, catalog and files untouched. -/
theorem precondition_violations_fail_clean (st : State) (name : String)
    (chunks : Nat) :
    (st.recording = true → startRecording st = (false, st)) ∧
    (st.recording = false → stopRecording st chunks = (false, st)) ∧
    (st.playing = true → startPlaying st = (false, st)) ∧
    (st.playing = false → stopPlaying st = (false, st)) ∧
    (tlookup "curr" st.table = none ∨ (tlookup name st.table).isSome = true →
      saveCurr st name = Except.ok (false, st)) ∧
    (tlookup name st.table = none →
      setAsCurr st name none = Except.ok (false, st)) ∧
    (name = "curr" ∨ tlookup name st.table = none →
      delete st name = Except.ok (false, st)) := by
  refine ⟨?_, ?_, ?_, ?_, ?_, ?_, ?_⟩
  · intro h; simp [startRecording, h]
  · intro h; simp [stopRecording, h]
  · intro h; simp [startPlaying, h]
  · intro h; simp [stopPlaying, h]
  · intro h
    rcases h with h | h
    · rcases hn : tlookup name st.table with _ | y <;> simp [saveCurr, h, hn]
    · obtain ⟨y, hy⟩ := Option.isSome_iff_exists.mp h
      rcases hc : tlookup "curr" st.table with _ | m <;> simp [saveCurr, hc, hy]
  · intro h; simp [setAsCurr, h]
  · intro h
    rcases h with h | h <;> simp [delete, h]

/-- Witness for C4 at concrete states: each violating call fails cleanly. -/
theorem precondition_violations_fail_clean_witness :
    startRecording stBusy = (false, stBusy) ∧
    stopRecording stIdle 0 = (false, stIdle) ∧
    startPlaying stBusy = (false, stBusy) ∧
    stopPlaying stIdle = (false, stIdle) ∧
    saveCurr stIdle "a" = Except.ok (false, stIdle) ∧
    setAsCurr stIdle "b" none = Except.ok (false, stIdle) ∧
    delete stIdle "curr" = Except.ok (false, stIdle) :=
  ⟨(precondition_violations_fail_clean stBusy "a" 0).1 rfl,
   (precondition_violations_fail_clean stIdle "a" 0).2.1 rfl,
   (precondition_violations_fail_clean stBusy "a" 0).2.2.1 rfl,
   (precondition_violations_fail_clean stIdle "a" 0).2.2.2.1 rfl,
   (precondition_violations_fail_clean stIdle "a" 0).2.2.2.2.1
     (Or.inr (by decide)),
   (precondition_violations_fail_clean stIdle "b" 0).2.2.2.2.2.1 (by decide),
   (precondition_violations_fail_clean stIdle "curr" 0).2.2.2.2.2.2
     (Or.inl rfl)⟩

/-- C3.  For an identifier that is not an existing `.wav` filesystem path:
if it is a catalog key whose asset file exists, `setAsCurr` copies that
asset into the working-take slot, sets `curr`'s catalog metadata to the
named entry's stored value `m` exactly as stored (no recomputation from the
file `f`, whose own frame count and size are arbitrary here), persists the
catalog, and returns `true`; if it is not a catalog key, it returns
`false`. -/
theorem setAsCurr_catalog_mode_spec (st : State) (name : String) (m : Meta)
    (f : Wav) :
    (tlookup name st.table = some m → tlookup name st.saved = some f →
      setAsCurr st name none =
        Except.ok (true,
          persist { st with currFile := some f,
                            table := tinsert "curr" m st.table })) ∧
    (tlookup name st.table = none →
      setAsCurr st name none = Except.ok (false, st)) := by
  constructor
  · intro h1 h2
    simp [setAsCurr, h1, h2, writeTable, persist, Except.map]
  · intro h
    simp [setAsCurr, h]

/-- Witness for C3: selecting the cataloged take `a`, whose stored metadata
deliberately disagrees with anything recomputable from its file, installs
that stored metadata verbatim as `curr`. -/
theorem setAsCurr_catalog_mode_spec_witness :
    setAsCurr stIdle "a" none =
      Except.ok (true,
        persist { stIdle with currFile := some sampleWav2,
                              table := tinsert "curr" sampleMeta stIdle.table }) :=
  (setAsCurr_catalog_mode_spec stIdle "a" sampleMeta sampleWav2).1 rfl rfl

/-- C6.  `saveCurr name` returns `false` exactly when the catalog lacks a
`curr` entry or already holds `name`; whenever it returns `true` it has
copied the working-take file to the name-addressed slot, created a catalog
entry under `name` equal to `curr`'s metadata at call time (a fresh value,
per `dict(...)`), and persisted the catalog. -/
theorem saveCurr_spec (st : State) (name : String) :
    (returnsFalse (saveCurr st name) = true ↔
      (tlookup "curr" st.table = none ∨
        (tlookup name st.table).isSome = true)) ∧
    (∀ st', saveCurr st name = Except.ok (true, st') →
      tlookup name st'.saved = st.currFile ∧
      st.currFile.isSome = true ∧
      tlookup name st'.table = tlookup "curr" st.table ∧
      (tlookup "curr" st.table).isSome = true ∧
      st'.tableDoc = some st'.table) := by
  rcases hc : tlookup "curr" st.table with _ | m
  · constructor
    · simp [saveCurr, hc, returnsFalse]
    · intro st' h
      simp [saveCurr, hc] at h
  · rcases hn : tlookup name st.table with _ | y
    · rcases hf : st.currFile with _ | f
      · constructor
        · simp [saveCurr, hc, hn, hf, returnsFalse]
        · intro st' h
          simp [saveCurr, hc, hn, hf] at h
      · constructor
        · simp [saveCurr, hc, hn, hf, returnsFalse, writeTable, Except.map]
        · intro st' h
          simp [saveCurr, hc, hn, hf, writeTable, persist, Except.map] at h
          subst h
          refine ⟨?_, ?_, ?_, ?_, rfl⟩
          · simp [persist, tlookup_tinsert_self, hf]
          · simp [hf]
          · simp [persist, tlookup_tinsert_self, hc]
          · simp [hc]
    · constructor
      · simp [saveCurr, hc, hn, returnsFalse]
      · intro st' h
        simp [saveCurr, hc, hn] at h

/-- Witness for C6: saving the working take under the fresh name `b` clones
`curr`'s metadata and copies the file. -/
theorem saveCurr_spec_witness :
    saveCurr stIdle "b" = Except.ok (true, stAfterSave) ∧
    (tlookup "b" stAfterSave.saved = stIdle.currFile ∧
     stIdle.currFile.isSome = true ∧
     tlookup "b" stAfterSave.table = tlookup "curr" stIdle.table ∧
     (tlookup "curr" stIdle.table).isSome = true ∧
     stAfterSave.tableDoc = some stAfterSave.table) :=
  ⟨rfl, (saveCurr_spec stIdle "b").2 stAfterSave rfl⟩

/-- C7.  Whenever `delete name` returns `true`, the catalog no longer holds
`name` and its asset file is gone, while every other catalog entry, every
other asset file and the working-take file are exactly as before, and the
catalog has been persisted; and `delete "curr"` always returns `false`,
changing nothing. -/
theorem delete_frame_spec (st : State) (name : String) :
    (∀ st', delete st name = Except.ok (true, st') →
      tlookup name st'.table = none ∧
      tlookup name st'.saved = none ∧
      (∀ n, n ≠ name → tlookup n st'.table = tlookup n st.table) ∧
      (∀ n, n ≠ name → tlookup n st'.saved = tlookup n st.saved) ∧
      st'.currFile = st.currFile ∧
      st'.tableDoc = some st'.table) ∧
    delete st "curr" = Except.ok (false, st) := by
  constructor
  · intro st' h
    by_cases h1 : name = "curr"
    · simp [delete, h1] at h
    · rcases hn : tlookup name st.table with _ | m
      · simp [delete, h1, hn] at h
      · rcases hf : tlookup name st.saved with _ | f
        · simp [delete, h1, hn, hf] at h
        · simp [delete, h1, hn, hf, writeTable, persist, Except.map] at h
          subst h
          refine ⟨?_, ?_, ?_, ?_, rfl, rfl⟩
          · simp [persist, tlookup_terase_self]
          · simp [persist, tlookup_terase_self]
          · intro n hne
            simp [persist, tlookup_terase_ne hne]
          · intro n hne
            simp [persist, tlookup_terase_ne hne]
  · simp [delete]

/-- Witness for C7: deleting the cataloged take `a` removes exactly its
entry and file, leaving `curr` and the working-take file untouched. -/
theorem delete_frame_spec_witness :
    delete stIdle "a" = Except.ok (true, stAfterDelete) ∧
    tlookup "a" stAfterDelete.table = none ∧
    tlookup "a" stAfterDelete.saved = none ∧
    tlookup "curr" stAfterDelete.table = tlookup "curr" stIdle.table ∧
    stAfterDelete.currFile = stIdle.currFile ∧
    stAfterDelete.tableDoc = some stAfterDelete.table :=
  ⟨rfl,
   ((delete_frame_spec stIdle "a").1 stAfterDelete rfl).1,
   ((delete_frame_spec stIdle "a").1 stAfterDelete rfl).2.1,
   ((delete_frame_spec stIdle "a").1 stAfterDelete rfl).2.2.1 "curr" (by decide),
   ((delete_frame_spec stIdle "a").1 stAfterDelete rfl).2.2.2.2.1,
   ((delete_frame_spec stIdle "a").1 stAfterDelete rfl).2.2.2.2.2⟩

/-- The invariant only depends on the `saved` and `table` components. -/
theorem storeCatalogInv_of_eq (st st' : State) (hs : st'.saved = st.saved)
    (ht : st'.table = st.table) (h : storeCatalogInv st) :
    storeCatalogInv st' := by
  intro n hn
  rw [hs, ht]
  exact h n hn


/-- Updating the `curr` table entry preserves the invariant, which ranges
over the other names only. -/
theorem storeCatalogInv_tinsert_curr (st : State) (m : Meta)
    (h : storeCatalogInv st) :
    storeCatalogInv { st with table := tinsert "curr" m st.table } := by
  intro n hn
  have hbase := h n hn
  rw [show ({ st with table := tinsert "curr" m st.table } : State).saved =
        st.saved from rfl]
  rw [show ({ st with table := tinsert "curr" m st.table } : State).table =
        tinsert "curr" m st.table from rfl]
  rw [tlookup_tinsert_ne hn]
  exact hbase

/-- C8.  The store/catalog correspondence (`storeCatalogInv`): if it holds
before any single tool operation, it holds after the operation completes,
whatever the operation returns — `saveCurr` creates the entry and the file
together, `delete` destroys them together, and no other operation creates or
removes a named entry or named file. -/
theorem storeCatalogInv_preserved (st : State) (hInv : storeCatalogInv st) :
    (∀ b st', startRecording st = (b, st') → storeCatalogInv st') ∧
    (∀ chunks b st', stopRecording st chunks = (b, st') →
      storeCatalogInv st') ∧
    (∀ b st', startPlaying st = (b, st') → storeCatalogInv st') ∧
    (∀ b st', stopPlaying st = (b, st') → storeCatalogInv st') ∧
    (∀ name b st', saveCurr st name = Except.ok (b, st') →
      storeCatalogInv st') ∧
    (∀ name w b st', setAsCurr st name w = Except.ok (b, st') →
      storeCatalogInv st') ∧
    (∀ name b st', delete st name = Except.ok (b, st') →
      storeCatalogInv st') := by
  refine ⟨?_, ?_, ?_, ?_, ?_, ?_, ?_⟩
  · intro b st' hEq
    by_cases h : st.recording <;> simp [startRecording, h] at hEq
    · obtain ⟨-, rfl⟩ := hEq
      exact hInv
    · obtain ⟨-, rfl⟩ := hEq
      intro n hn
      exact hInv n hn
  · intro chunks b st' hEq
    by_cases h : st.recording <;> simp [stopRecording, h] at hEq
    · obtain ⟨-, rfl⟩ := hEq
      intro n hn
      simpa [recordFinish, writeTable, writeWav, persist,
        tlookup_tinsert_ne hn] using hInv n hn
    · obtain ⟨-, rfl⟩ := hEq
      exact hInv
  · intro b st' hEq
    by_cases h : st.playing <;> simp [startPlaying, h] at hEq
    · obtain ⟨-, rfl⟩ := hEq
      exact hInv
    · obtain ⟨-, rfl⟩ := hEq
      intro n hn
      exact hInv n hn
  · intro b st' hEq
    by_cases h : st.playing <;> simp [stopPlaying, h, playWorkerExit] at hEq
    · obtain ⟨-, rfl⟩ := hEq
      intro n hn
      exact hInv n hn
    · obtain ⟨-, rfl⟩ := hEq
      exact hInv
  · intro name b st' hEq
    rcases hc : tlookup "curr" st.table with _ | m
    · simp [saveCurr, hc] at hEq
      obtain ⟨-, rfl⟩ := hEq
      exact hInv
    · rcases hn : tlookup name st.table with _ | y
      · rcases hf : st.currFile with _ | f
        · simp [saveCurr, hc, hn, hf] at hEq
        · simp [saveCurr, hc, hn, hf, writeTable, persist, Except.map] at hEq
          obtain ⟨-, rfl⟩ := hEq
          intro n hnn
          by_cases hname : n = name
          · subst hname
            simp [tlookup_tinsert_self]
          · simp only [tlookup_tinsert_ne hname]
            exact hInv n hnn
      · simp [saveCurr, hc, hn] at hEq
        obtain ⟨-, rfl⟩ := hEq
        exact hInv
  · intro name w b st' hEq
    rcases w with _ | wv
    · rcases hn : tlookup name st.table with _ | m
      · simp [setAsCurr, hn] at hEq
        obtain ⟨-, rfl⟩ := hEq
        exact hInv
      · rcases hf : tlookup name st.saved with _ | f
        · simp [setAsCurr, hn, hf] at hEq
        · simp [setAsCurr, hn, hf, writeTable, persist, Except.map] at hEq
          obtain ⟨-, rfl⟩ := hEq
          intro n hnn
          simp only [tlookup_tinsert_ne hnn]
          exact hInv n hnn
    · simp [setAsCurr, writeTable, persist, Except.map] at hEq
      obtain ⟨-, rfl⟩ := hEq
      intro n hnn
      simp only [tlookup_tinsert_ne hnn]
      exact hInv n hnn
  · intro name b st' hEq
    by_cases h1 : name = "curr"
    · simp [delete, h1] at hEq
      obtain ⟨-, rfl⟩ := hEq
      exact hInv
    · rcases hn : tlookup name st.table with _ | m
      · simp [delete, h1, hn] at hEq
        obtain ⟨-, rfl⟩ := hEq
        exact hInv
      · rcases hf : tlookup name st.saved with _ | f
        · simp [delete, h1, hn, hf] at hEq
        · simp [delete, h1, hn, hf, writeTable, persist, Except.map] at hEq
          obtain ⟨-, rfl⟩ := hEq
          intro n hnn
          by_cases hname : n = name
          · subst hname
            simp [tlookup_terase_self]
          · simp only [tlookup_terase_ne hname]
            exact hInv n hnn

/-- Witness for C8: from the populated idle state, which satisfies the
invariant, a successful `delete "a"` preserves it. -/
theorem storeCatalogInv_preserved_witness : storeCatalogInv stAfterDelete := by
  have hIdle : storeCatalogInv stIdle := by
    intro n hn
    have hcn : ¬("curr" = n) := fun h => hn h.symm
    by_cases h : "a" = n <;> simp [stIdle, tlookup, hcn, h]
  exact (storeCatalogInv_preserved stIdle hIdle).2.2.2.2.2.2 "a" true
    stAfterDelete rfl
